import Mathlib

/-!
Verification of the per-turn decision pipeline of the wellbeing backend.

The pipeline under study lives in `main.py` (the wired FastAPI app with the
seven agents); `agents/safety_agent.py` holds an earlier class-based variant
of the safety classifier and `orchestrator.py` a standalone V12.1 variant of
the reply step.  Python strings become Lean `String`s, dicts with fixed keys
become structures, LLM calls become explicit `Except Unit String` outcomes
(`.error` models a raised exception, `.ok` the returned completion text),
and `json.loads` becomes an abstract `String → Option JsonVal` argument
(`none` models both a parse exception and invalid JSON).
-/

namespace Wellbeing

/-- Models Python `str.lower()` as applied in this code base.  `Char.toLower`
lowers ASCII letters; every keyword in the source lists is already
lower-case (the Vietnamese diacritic characters appearing there are
lower-case code points and are left unchanged by both functions). -/
def lowerPy (s : String) : String := String.mk (s.toList.map Char.toLower)

/-- Test `startsWithL needle hay`: character-list version of a string prefix test. -/
def startsWithL : List Char → List Char → Bool
  | [], _ => true
  | _ :: _, [] => false
  | a :: as, b :: bs => a == b && startsWithL as bs

/-- Test `containsL needle hay`: does `needle` occur contiguously inside `hay`?
This is the Python substring operator `needle in hay`. -/
def containsL (needle : List Char) : List Char → Bool
  | [] => needle.isEmpty
  | b :: bs => startsWithL needle (b :: bs) || containsL needle bs

/-- Python `needle in hay` on strings. -/
def strContains (hay needle : String) : Bool :=
  containsL needle.toList hay.toList

/-- Python `any(kw in hay for kw in kws)`. -/
def containsAny (hay : String) (kws : List String) : Bool :=
  kws.any (fun kw => strContains hay kw)

/-- Python `str.strip()`: drop leading and trailing whitespace (the
whitespace characters relevant to this code base are the ASCII ones
recognised by `Char.isWhitespace`). -/
def stripPy (s : String) : String :=
  String.mk
    (((s.toList.dropWhile Char.isWhitespace).reverse.dropWhile
        Char.isWhitespace).reverse)

/-- One chat turn, `main.py` class `ChatMessage` (`{role, content}`). -/
structure ChatMessage where
  role : String
  content : String
deriving DecidableEq, Repr

/-- The InsightResult dict as consumed by the decision code
(`insights.get("emotion"/"risk_level"/"positive_event"/"language")`). -/
structure Insights where
  emotion : String
  risk_level : String
  positive_event : Bool
  topics : List String
  language : String
deriving DecidableEq, Repr

/-- The dict returned by `run_safety_agent` in `main.py`
(`{escalate, reason, override_risk_level, self_harm, violence}`). -/
structure SafetyResult where
  escalate : Bool
  reason : String
  override_risk_level : Option String
  self_harm : Bool
  violence : Bool
deriving DecidableEq, Repr

/-- List `danger_keywords` of `run_safety_agent` (main.py lines 368-377). -/
def danger_keywords : List String :=
  ["tự tử", "tự sát", "không muốn sống", "khong muon song",
   "kill myself", "end my life", "suicide", "hurt myself"]

/-- List `relationship_violence` of `run_safety_agent` (main.py lines 379-399). -/
def relationship_violence : List String :=
  ["đánh em", "danh em", "bị đánh", "bi danh", "đánh tui", "danh tui",
   "anh đánh em", "anh danh em", "anh đánh tui", "anh danh tui",
   "bạo lực", "bao luc", "hit me", "hurt me", "abused me",
   "domestic violence", "he hit me", "he slapped me", "he punched me"]

/-- Function `run_safety_agent(message, insights)` from `main.py` lines 351-431:
keyword-based safety layer, self-harm scanned before violence, then a
generic branch on the insight risk level, else the non-escalating base. -/
def run_safety_agent (message : String) (insights : Insights) : SafetyResult :=
  let msg := lowerPy message
  if containsAny msg danger_keywords then
    { escalate := true, reason := "Self-harm keywords detected",
      override_risk_level := some "high", self_harm := true, violence := false }
  else if containsAny msg relationship_violence then
    { escalate := true, reason := "Relationship / physical violence detected",
      override_risk_level := some "high", self_harm := false, violence := true }
  else if insights.risk_level == "high" then
    { escalate := true, reason := "Insight agent assessed high risk",
      override_risk_level := some "high", self_harm := false, violence := false }
  else
    { escalate := false, reason := "",
      override_risk_level := none, self_harm := false, violence := false }

/-- List `danger_keywords` of `agents/safety_agent.py` `SafetyAgent.run`. -/
def agents_danger_keywords : List String :=
  ["tự tử", "tự sát", "không muốn sống", "kill myself", "end my life",
   "suicide", "hurt myself"]

/-- List `violence_keywords` of `agents/safety_agent.py` `SafetyAgent.run`. -/
def agents_violence_keywords : List String :=
  ["đánh", "bi danh", "anh danh em", "hit me", "abuse", "violence", "hurt me"]

/-- Method `SafetyAgent.run(message, insights)` from `agents/safety_agent.py`
lines 15-63 (the class-based iteration of the same classifier). -/
def safety_agent_run (message : String) (insights : Insights) : SafetyResult :=
  let msg := lowerPy message
  if containsAny msg agents_danger_keywords then
    { escalate := true, reason := "Self-harm keywords detected",
      override_risk_level := some "high", self_harm := true, violence := false }
  else if containsAny msg agents_violence_keywords then
    { escalate := true, reason := "Violence keywords detected",
      override_risk_level := some "high", self_harm := false, violence := true }
  else if insights.risk_level == "high" then
    { escalate := true, reason := "Insight agent flagged high risk",
      override_risk_level := some "high", self_harm := false, violence := false }
  else
    { escalate := false, reason := "low risk",
      override_risk_level := none, self_harm := false, violence := false }

/-- Expression `effective_risk = safety.get("override_risk_level") or risk_level`
(main.py line 976; the override is `None` or a non-empty literal, so
Python's `or` is `Option.getD`). -/
def effectiveRiskOf (insights : Insights) (safety : SafetyResult) : String :=
  safety.override_risk_level.getD insights.risk_level

/-- List `celebration_keywords` of `is_celebration_context` (main.py lines 756-776). -/
def celebration_keywords : List String :=
  ["trúng số", "trung so", "trúng học bổng", "trung hoc bong",
   "được học bổng", "duoc hoc bong", "học bổng", "hoc bong",
   "đậu visa", "dau visa", "được nhận", "duoc nhan",
   "passed the exam", "pass the exam", "got a scholarship",
   "won the lottery", "got the job", "got an offer", "accepted into"]

/-- List `negative_keywords` of `is_celebration_context` (main.py lines 777-794). -/
def negative_keywords : List String :=
  ["buồn", "buon", "stress", "lo lắng", "lo lang",
   "không muốn sống", "khong muon song", "sad", "anxious", "depressed",
   "bị đánh", "bi danh", "đánh em", "danh em", "bạo lực", "bao luc"]

/-- Python `xs[-n:]`. -/
def lastN (n : Nat) (xs : List α) : List α := xs.drop (xs.length - n)

/-- Function `is_celebration_context(all_msgs)` from `main.py` lines 744-800:
join the last six lower-cased user texts with spaces; celebratory iff some
celebration keyword occurs and no negative keyword occurs. -/
def is_celebration_context (all_msgs : List ChatMessage) : Bool :=
  let user_texts := (all_msgs.filter (fun m => m.role == "user")).map
    (fun m => lowerPy m.content)
  if user_texts.isEmpty then false
  else
    let text := String.intercalate " " (lastN 6 user_texts)
    containsAny text celebration_keywords && !(containsAny text negative_keywords)

/-- List `negative_break_keywords` of `run_response_agent` (main.py lines 978-1005). -/
def negative_break_keywords : List String :=
  ["buồn", "buon", "khóc", "khoc", "đau", "dau",
   "bị đánh", "bi danh", "đánh em", "danh em", "đánh tui", "danh tui",
   "bạo lực", "bao luc", "hurt me", "hit me", "abused me",
   "he hit me", "he slapped me", "he punched me",
   "không muốn sống", "khong muon song", "tự tử", "tự sát", "tu tu", "tu sat"]

/-- The joy-sticky flow of `run_response_agent` (main.py lines 1007-1018):
`joy_mode = celebration_flow or joy_one_shot`, turned off when the effective
risk is medium/high, then turned off when a negative-break keyword occurs in
the lowered current message.  `history ++ [user message]` is the `all_msgs`
list built on lines 967-970. -/
def joyModeOf (message : String) (history : List ChatMessage)
    (insights : Insights) (safety : SafetyResult) : Bool :=
  let all_msgs := history ++ [⟨"user", message⟩]
  let celebration_flow := is_celebration_context all_msgs
  let joy_one_shot := insights.positive_event && insights.risk_level == "low"
  let joy0 := celebration_flow || joy_one_shot
  let eff := effectiveRiskOf insights safety
  let joy1 := if eff == "medium" || eff == "high" then false else joy0
  if containsAny (lowerPy message) negative_break_keywords then false else joy1

/-- Flag `add_support` of `run_response_agent` (main.py lines 1028-1039):
true when the effective risk is "high" or the safety agent escalates,
forced false in joy mode. -/
def addSupportOf (message : String) (history : List ChatMessage)
    (insights : Insights) (safety : SafetyResult) : Bool :=
  if joyModeOf message history insights safety then false
  else effectiveRiskOf insights safety == "high" || safety.escalate

/-- The `interventions` string after the joy-mode reset of main.py
lines 1036-1039: cleared in joy mode, otherwise passed through. -/
def interventionsOf (message : String) (history : List ChatMessage)
    (insights : Insights) (safety : SafetyResult) (interventions : String) : String :=
  if joyModeOf message history insights safety then "" else interventions

/-- The per-turn decision fields resolved inside `run_response_agent`. -/
structure Decision where
  joy_mode : Bool
  add_support : Bool
  interventions : String
  effective_risk : String
deriving DecidableEq, Repr

/-- All decision fields of `run_response_agent` (main.py lines 972-1039). -/
def responseDecision (message : String) (history : List ChatMessage)
    (insights : Insights) (safety : SafetyResult) (interventions : String) :
    Decision :=
  { joy_mode := joyModeOf message history insights safety,
    add_support := addSupportOf message history insights safety,
    interventions := interventionsOf message history insights safety interventions,
    effective_risk := effectiveRiskOf insights safety }

/-- Constant `ADELAIDE_SUPPORT` (main.py lines 133-151), the SupportBlock: a fixed
literal text resource, reproduced byte-for-byte. -/
def ADELAIDE_SUPPORT : String :=
"
University of Adelaide – Student Wellbeing Support

• Counselling Support (free for all students)
  https://www.adelaide.edu.au/counselling/

• After-hours Crisis Line (5pm–9am weekdays, 24/7 weekends & holidays)
  Phone: 1300 167 654
  Text: 0488 884 197

• Student Life Support
  https://www.adelaide.edu.au/student/wellbeing

• International Student Support
  https://international.adelaide.edu.au/student-support

• Emergency (Australia-wide)
  Call 000 for urgent emergencies.
"

/-- The `support_instruction` f-string of `run_response_agent`
(main.py lines 1044-1062), with `effective_risk` and `ADELAIDE_SUPPORT`
interpolated at their placeholders. -/
def supportInstructionText (effective_risk : String) : String :=
  "
Because the student\x27s risk is \x27" ++ effective_risk ++ "\x27 or they expressed strong negative emotions:

1) First, in the SAME LANGUAGE as the student, add 1–2 SHORT sentences that smoothly introduce
   the idea of getting extra support from the university.
   - For example in Vietnamese:
     \"Ngoài ra, nếu một lúc nào đó em cảm thấy cần thêm sự hỗ trợ chuyên nghiệp,
     em hoàn toàn có thể liên hệ với các dịch vụ hỗ trợ của trường dưới đây.\"
   - Or in English:
     \"If at any point you feel you’d like more professional support,
     you can also reach out to the support services at uni below.\"

2) Then, on the next lines, you MUST append the following support information block
   at the END of your reply, after your own supportive message.
   Do NOT translate or summarise this block, copy it exactly as-is.

Support block (University of Adelaide):
" ++ ADELAIDE_SUPPORT ++ "\n"

/-- String `support_instruction` as assigned on main.py lines 1042-1062:
empty unless `add_support`. -/
def supportInstrOf (message : String) (history : List ChatMessage)
    (insights : Insights) (safety : SafetyResult) : String :=
  if addSupportOf message history insights safety then
    supportInstructionText (effectiveRiskOf insights safety)
  else ""

/-- The `messages` list built by `run_response_agent` (main.py lines
1120-1137): the assembled system prompt, three fixed system notes, the
support instruction when non-empty, the history, and the new user message.
`system_content`, `profile_summary` and the formatted `trend` dict are taken
as opaque string inputs: they are pure prompt plumbing (main.py lines
1064-1118) whose content the decision logic never inspects. -/
def responseMessages (message : String) (history : List ChatMessage)
    (insights : Insights) (safety : SafetyResult) (interventions : String)
    (profile_summary trend_text system_content : String) : List ChatMessage :=
  let support_instruction := supportInstrOf message history insights safety
  let base : List ChatMessage :=
    [⟨"system", system_content⟩,
     ⟨"system", "Profile summary:\n" ++ profile_summary⟩,
     ⟨"system", "Trend info:\n" ++ trend_text⟩,
     ⟨"system", "Internal intervention suggestions:\n"
        ++ interventionsOf message history insights safety interventions⟩]
  let withSupport :=
    if support_instruction.isEmpty then base
    else base ++ [⟨"system", support_instruction⟩]
  withSupport ++ history ++ [⟨"user", message⟩]

/-- Final generation call and return of `run_response_agent` (main.py lines
1139-1145): the Groq completion is invoked on the assembled messages and its
content is returned directly.  `gen` models the external collaborator:
`.error` is a raised exception (which the Python code does not catch here),
`.ok` the completion text. -/
def run_response_agent (message : String) (history : List ChatMessage)
    (insights : Insights) (safety : SafetyResult) (interventions : String)
    (profile_summary trend_text system_content : String)
    (gen : List ChatMessage → Except Unit String) : Except Unit String :=
  gen (responseMessages message history insights safety interventions
        profile_summary trend_text system_content)

/-- A JSON value, the possible results of Python `json.loads`. -/
inductive JsonVal where
  | null : JsonVal
  | bool (b : Bool) : JsonVal
  | num (n : Int) : JsonVal
  | str (s : String) : JsonVal
  | arr (xs : List JsonVal) : JsonVal
  | obj (fields : List (String × JsonVal)) : JsonVal

/-- The candidate picked by `re.search(r"\x7b.*\x7d", text, re.DOTALL)`
(main.py line 62): the greedy match runs from the first `\x7b` to the last
`\x7d` after it; `none` when no such pair exists. -/
def firstBraceSlice (cs : List Char) : Option (List Char) :=
  match cs.findIdx? (fun c => c == '{') with
  | none => none
  | some i =>
    let rest := cs.drop i
    match rest.reverse.findIdx? (fun c => c == '}') with
    | none => none
    | some k => some (rest.take (rest.length - k))

/-- Function `extract_json(text)` from `main.py` lines 44-70, relative to an abstract
`loads : String → Option JsonVal` standing for `json.loads` (`none` models a
raised `JSONDecodeError`): empty text yields `None`; otherwise try the
stripped text, then the first `\x7b...\x7d` block. -/
def extract_json (loads : String → Option JsonVal) (text : String) :
    Option JsonVal :=
  if text.isEmpty then none
  else
    let t := stripPy text
    match loads t with
    | some v => some v
    | none =>
      match firstBraceSlice t.toList with
      | none => none
      | some cand =>
        match loads (String.mk cand) with
        | some v => some v
        | none => none

/-- A concrete fragment of `json.loads`, used to exercise the parse paths
on specific inputs: real `json.loads` maps the text `\x7b"emotion": 42\x7d`
to the object with the single field `emotion = 42`, and fails on the plain
prose used alongside it. -/
def loads0 : String → Option JsonVal := fun s =>
  if s == "\x7b\"emotion\": 42\x7d" then some (.obj [("emotion", .num 42)])
  else none

/-- The documented default InsightResult substituted on failure
(main.py lines 227-233). -/
def defaultInsight : JsonVal :=
  .obj [("emotion", .str "neutral"), ("risk_level", .str "low"),
        ("positive_event", .bool false), ("topics", .arr []),
        ("language", .str "other")]

/-- Outcome logic of `run_insight_agent` from `main.py` lines 214-233: the
whole structured-extraction call sits in one `try`; a raised exception
(`call = .error`) or a `None` from `extract_json` falls back to the default,
while any parsed JSON value is returned as-is, without field validation. -/
def run_insight_agent (loads : String → Option JsonVal)
    (call : Except Unit String) : JsonVal :=
  match call with
  | .error _ => defaultInsight
  | .ok raw =>
    match extract_json loads raw with
    | some d => d
    | none => defaultInsight

/-- The trend default `{"trend": "unknown", "rationale": "Not enough
reliable data"}` (main.py line 297). -/
def trendDefault : JsonVal :=
  .obj [("trend", .str "unknown"), ("rationale", .str "Not enough reliable data")]

/-- Outcome logic of `run_trend_agent` from `main.py` lines 284-297, same
shape as the insight agent with its own default. -/
def run_trend_agent (loads : String → Option JsonVal)
    (call : Except Unit String) : JsonVal :=
  match call with
  | .error _ => trendDefault
  | .ok raw =>
    match extract_json loads raw with
    | some d => d
    | none => trendDefault

/-- Function `run_intervention_agent(insights, trend, message)` from `main.py`
lines 303-345: empty for a low-risk positive event or joy/neutral emotion,
otherwise the stripped completion text (`gen` models the LLM call result). -/
def run_intervention_agent (insights : Insights) (gen : String) : String :=
  if insights.positive_event && insights.risk_level == "low" then ""
  else if insights.emotion == "joy" || insights.emotion == "neutral" then ""
  else stripPy gen

/-- The fixed reply of `Orchestrator._call_llm` on a raised exception
(orchestrator.py lines 317-331). -/
def orchestratorErrorReply : String :=
  "Mình đang gặp lỗi khi kết nối mô hình để tạo phản hồi. Bạn thử gửi lại trong ít phút nữa nhé."

/-- Method `Orchestrator._call_llm(messages)`: the stripped completion on success,
the fixed Vietnamese message when the call raises. -/
def orchestrator_call_llm (gen : Except Unit String) : String :=
  match gen with
  | .error _ => orchestratorErrorReply
  | .ok s => stripPy s

/-- The reply step of `Orchestrator.run` (orchestrator.py lines 384-390):
`_call_llm`, then `if not reply:` substitute a second fixed message. -/
def orchestratorReplyStep (gen : Except Unit String) : String :=
  let reply := orchestrator_call_llm gen
  if reply.isEmpty then
    "Mình ở đây với bạn. Bạn có thể nói thêm một chút về điều đang xảy ra không?"
  else reply

/-- List `CELEBRATION_KEYWORDS` of `agents/joy_agent.py` `JoyAgent`. -/
def joy_agent_celebration_keywords : List String :=
  ["trúng", "trung", "học bổng", "hoc bong", "đậu", "pass", "passed",
   "got the job", "scholarship", "offer", "accepted", "trúng số",
   "ăn mừng", "celebrate"]

/-- List `NEGATIVE_BREAK` of `agents/joy_agent.py` `JoyAgent`. -/
def joy_agent_negative_break : List String :=
  ["buồn", "sad", "stress", "không muốn sống", "hurt", "đánh"]

/-- Method `JoyAgent.update_state(history, latest_message)` from
`agents/joy_agent.py` lines 33-50: break keywords first, then the latest
message, then the joined lower-cased contents of the last six history
turns. -/
def joy_agent_update_state (history : List ChatMessage) (latest : String) :
    Bool :=
  if containsAny (lowerPy latest) joy_agent_negative_break then false
  else if containsAny (lowerPy latest) joy_agent_celebration_keywords then true
  else
    let recent := String.intercalate " "
      ((lastN 6 history).map (fun m => lowerPy m.content))
    if containsAny recent joy_agent_celebration_keywords then true else false

/-! Helper lemmas shared by the claim theorems. -/

lemma startsWithL_append : ∀ (b c : List Char), startsWithL b (b ++ c) = true
  | [], _ => rfl
  | a :: as, c => by simp [startsWithL, startsWithL_append as c]

lemma containsL_self_append : ∀ (b c : List Char), containsL b (b ++ c) = true
  | [], [] => rfl
  | [], _ :: _ => by simp [containsL, startsWithL]
  | a :: as, c => by
    have h := startsWithL_append (a :: as) c
    simp only [List.cons_append] at h
    simp [containsL, h]

lemma containsL_mid (a b c : List Char) : containsL b (a ++ (b ++ c)) = true := by
  induction a with
  | nil => simpa using containsL_self_append b c
  | cons x xs ih => simp [containsL, ih]

lemma strContains_append_right (x y z : String) :
    strContains (x ++ y ++ z) y = true := by
  have h : (x ++ y ++ z).data = x.data ++ (y.data ++ z.data) := by
    simp [String.data_append, List.append_assoc]
  show containsL y.toList (x ++ y ++ z).toList = true
  simp only [String.toList, h]
  exact containsL_mid x.data y.data z.data

lemma safety_shape (m : String) (i : Insights) :
    ((run_safety_agent m i).escalate = true ∧
      (run_safety_agent m i).override_risk_level = some "high") ∨
    ((run_safety_agent m i).escalate = false ∧
      (run_safety_agent m i).override_risk_level = none ∧
      (run_safety_agent m i).self_harm = false ∧
      (run_safety_agent m i).violence = false ∧
      (i.risk_level == "high") = false) := by
  cases h1 : containsAny (lowerPy m) danger_keywords with
  | true => exact Or.inl (by simp [run_safety_agent, h1])
  | false =>
    cases h2 : containsAny (lowerPy m) relationship_violence with
    | true => exact Or.inl (by simp [run_safety_agent, h1, h2])
    | false =>
      cases h3 : i.risk_level == "high" with
      | true => exact Or.inl (by simp [run_safety_agent, h1, h2, h3])
      | false => exact Or.inr (by simp [run_safety_agent, h1, h2, h3])

lemma safety_shape_agents (m : String) (i : Insights) :
    ((safety_agent_run m i).escalate = true ∧
      (safety_agent_run m i).override_risk_level = some "high") ∨
    ((safety_agent_run m i).escalate = false ∧
      (safety_agent_run m i).override_risk_level = none ∧
      (safety_agent_run m i).self_harm = false ∧
      (safety_agent_run m i).violence = false ∧
      (i.risk_level == "high") = false) := by
  cases h1 : containsAny (lowerPy m) agents_danger_keywords with
  | true => exact Or.inl (by simp [safety_agent_run, h1])
  | false =>
    cases h2 : containsAny (lowerPy m) agents_violence_keywords with
    | true => exact Or.inl (by simp [safety_agent_run, h1, h2])
    | false =>
      cases h3 : i.risk_level == "high" with
      | true => exact Or.inl (by simp [safety_agent_run, h1, h2, h3])
      | false => exact Or.inr (by simp [safety_agent_run, h1, h2, h3])

lemma escalate_override (m : String) (i : Insights)
    (h : (run_safety_agent m i).escalate = true) :
    (run_safety_agent m i).override_risk_level = some "high" := by
  rcases safety_shape m i with ⟨_, ho⟩ | ⟨he, _⟩
  · exact ho
  · rw [he] at h; cases h

lemma escalate_effective_high (m : String) (i : Insights)
    (h : (run_safety_agent m i).escalate = true) :
    effectiveRiskOf i (run_safety_agent m i) = "high" := by
  rw [effectiveRiskOf, escalate_override m i h]; rfl

lemma joyMode_false_of_escalate (m : String) (hist : List ChatMessage)
    (i : Insights) (h : (run_safety_agent m i).escalate = true) :
    joyModeOf m hist i (run_safety_agent m i) = false := by
  have heff := escalate_effective_high m i h
  simp [joyModeOf, heff]

lemma addSupport_of_escalate (m : String) (hist : List ChatMessage)
    (i : Insights) (h : (run_safety_agent m i).escalate = true) :
    addSupportOf m hist i (run_safety_agent m i) = true := by
  simp [addSupportOf, joyMode_false_of_escalate m hist i h, h]

lemma escalate_of_addSupport (m : String) (hist : List ChatMessage)
    (i : Insights) (h : addSupportOf m hist i (run_safety_agent m i) = true) :
    (run_safety_agent m i).escalate = true := by
  rcases safety_shape m i with ⟨he, _⟩ | ⟨he, ho, _, _, hr⟩
  · exact he
  · exfalso
    simp [addSupportOf, effectiveRiskOf, he, ho, hr] at h

lemma shape_consequences (r : SafetyResult) (i : Insights)
    (h : (r.escalate = true ∧ r.override_risk_level = some "high") ∨
      (r.escalate = false ∧ r.override_risk_level = none ∧
        r.self_harm = false ∧ r.violence = false ∧
        (i.risk_level == "high") = false)) :
    (r.override_risk_level = if r.escalate then some "high" else none) ∧
    (r.self_harm = true → r.escalate = true) ∧
    (r.violence = true → r.escalate = true) ∧
    (r.escalate = true → effectiveRiskOf i r = "high") := by
  rcases h with ⟨he, ho⟩ | ⟨he, ho, hs, hv, _⟩
  · exact ⟨by rw [he, ho]; rfl, fun _ => he, fun _ => he,
      fun _ => by rw [effectiveRiskOf, ho]; rfl⟩
  · refine ⟨by rw [he, ho]; rfl, ?_, ?_, ?_⟩
    · intro hx; simp [hx] at hs
    · intro hx; simp [hx] at hv
    · intro hx; simp [hx] at he

set_option maxRecDepth 8192 in
lemma supportInstructionText_nonempty :
    (supportInstructionText "high").isEmpty = false := by decide

lemma supportInstructionText_has_block (r : String) :
    strContains (supportInstructionText r) ADELAIDE_SUPPORT = true := by
  simp only [supportInstructionText]
  exact strContains_append_right _ ADELAIDE_SUPPORT "\n"

/-! Claim theorems. -/

/-- C1 counterexample: with `add_support` resolved true for a self-harm
message, a generation collaborator that returns the bare text "ok" yields
the reply "ok", which does not contain the SupportBlock — so the emitted
reply does not contain the SupportBlock for every possible generated text,
and no composer-side concatenation happens. -/
theorem c1_counterexample :
    run_response_agent "i want to kill myself" []
        ⟨"sadness", "high", false, [], "en"⟩
        (run_safety_agent "i want to kill myself" ⟨"sadness", "high", false, [], "en"⟩)
        "" "" "" "" (fun _ => Except.ok "ok") = Except.ok "ok" ∧
    (responseDecision "i want to kill myself" []
        ⟨"sadness", "high", false, [], "en"⟩
        (run_safety_agent "i want to kill myself" ⟨"sadness", "high", false, [], "en"⟩)
        "").add_support = true ∧
    strContains "ok" ADELAIDE_SUPPORT = false :=
  ⟨rfl, by decide, by decide⟩

/-- C1 amended: whenever `add_support` is resolved true (over the safety
result the pipeline actually computes), the message list sent to the
generation collaborator contains a system instruction that embeds the
SupportBlock verbatim as a substring (generation-side in-line insertion),
and the emitted reply is exactly whatever text the collaborator returns —
the composer performs no concatenation after generation. -/
theorem c1_amended_generation_side_support (m : String)
    (hist : List ChatMessage) (i : Insights) (iv ps ts sc : String) :
    ((responseDecision m hist i (run_safety_agent m i) iv).add_support = true →
      (⟨"system", supportInstructionText "high"⟩ : ChatMessage) ∈
          responseMessages m hist i (run_safety_agent m i) iv ps ts sc ∧
        strContains (supportInstructionText "high") ADELAIDE_SUPPORT = true) ∧
    (∀ gen : List ChatMessage → Except Unit String,
      run_response_agent m hist i (run_safety_agent m i) iv ps ts sc gen =
        gen (responseMessages m hist i (run_safety_agent m i) iv ps ts sc)) := by
  constructor
  · intro h
    simp only [responseDecision] at h
    have hesc := escalate_of_addSupport m hist i h
    have heff := escalate_effective_high m i hesc
    have hsup : supportInstrOf m hist i (run_safety_agent m i) =
        supportInstructionText "high" := by
      simp [supportInstrOf, h, heff]
    refine ⟨?_, supportInstructionText_has_block "high"⟩
    simp [responseMessages, hsup, supportInstructionText_nonempty,
      List.mem_append]
  · intro gen
    rfl

/-- C1 amended, witness at a concrete self-harm turn. -/
theorem c1_amended_witness :
    ((⟨"system", supportInstructionText "high"⟩ : ChatMessage) ∈
        responseMessages "i want to kill myself" []
          ⟨"sadness", "high", false, [], "en"⟩
          (run_safety_agent "i want to kill myself" ⟨"sadness", "high", false, [], "en"⟩)
          "" "" "" "" ∧
      strContains (supportInstructionText "high") ADELAIDE_SUPPORT = true) ∧
    run_response_agent "i want to kill myself" []
        ⟨"sadness", "high", false, [], "en"⟩
        (run_safety_agent "i want to kill myself" ⟨"sadness", "high", false, [], "en"⟩)
        "" "" "" "" (fun _ => Except.ok "hello") = Except.ok "hello" :=
  ⟨(c1_amended_generation_side_support "i want to kill myself" []
      ⟨"sadness", "high", false, [], "en"⟩ "" "" "" "").1 (by decide),
   (c1_amended_generation_side_support "i want to kill myself" []
      ⟨"sadness", "high", false, [], "en"⟩ "" "" "" "").2
     (fun _ => Except.ok "hello")⟩

/-- C2 counterexample: on a self-harm turn with `add_support = true`, a
generation collaborator that raises makes the whole response agent raise —
no fallback reply is produced and no SupportBlock is emitted. -/
theorem c2_counterexample :
    run_response_agent "i want to kill myself" []
        ⟨"sadness", "high", false, [], "en"⟩
        (run_safety_agent "i want to kill myself" ⟨"sadness", "high", false, [], "en"⟩)
        "" "" "" "" (fun _ => Except.error ()) = Except.error () ∧
    (responseDecision "i want to kill myself" []
        ⟨"sadness", "high", false, [], "en"⟩
        (run_safety_agent "i want to kill myself" ⟨"sadness", "high", false, [], "en"⟩)
        "").add_support = true :=
  ⟨rfl, by decide⟩

/-- C2 amended: in the main pipeline a generation-call exception propagates
out of `run_response_agent` unchanged and an empty completion is returned
as the (empty) reply, with no fallback and no SupportBlock appended; only
the standalone V12.1 orchestrator substitutes fixed fallback texts on
failure or empty reply, and its fallback does not contain the
SupportBlock. -/
theorem c2_amended_failure_semantics (m : String) (hist : List ChatMessage)
    (i : Insights) (sa : SafetyResult) (iv ps ts sc : String) (e : Unit) :
    run_response_agent m hist i sa iv ps ts sc (fun _ => Except.error e) =
      Except.error e ∧
    run_response_agent m hist i sa iv ps ts sc (fun _ => Except.ok "") =
      Except.ok "" ∧
    orchestrator_call_llm (Except.error e) = orchestratorErrorReply ∧
    orchestratorReplyStep (Except.error e) = orchestratorErrorReply ∧
    orchestratorReplyStep (Except.ok "") =
      "Mình ở đây với bạn. Bạn có thể nói thêm một chút về điều đang xảy ra không?" ∧
    strContains orchestratorErrorReply ADELAIDE_SUPPORT = false :=
  ⟨rfl, rfl, rfl, rfl, rfl, by decide⟩

/-- C3 counterexample: a medium-risk English message with no keyword
matches gets `escalate = false`, `joy_mode = false`, effective risk
"medium" — and `include_support = false`, not true as claimed
(Scenario D fails on the code: support requires high risk or escalation). -/
theorem c3_counterexample :
    (⟨"worry", "medium", false, [], "en"⟩ : Insights).risk_level = "medium" ∧
    (run_safety_agent "my exam is coming up soon"
        ⟨"worry", "medium", false, [], "en"⟩).escalate = false ∧
    (responseDecision "my exam is coming up soon" []
        ⟨"worry", "medium", false, [], "en"⟩
        (run_safety_agent "my exam is coming up soon" ⟨"worry", "medium", false, [], "en"⟩)
        "").joy_mode = false ∧
    (responseDecision "my exam is coming up soon" []
        ⟨"worry", "medium", false, [], "en"⟩
        (run_safety_agent "my exam is coming up soon" ⟨"worry", "medium", false, [], "en"⟩)
        "").effective_risk = "medium" ∧
    (responseDecision "my exam is coming up soon" []
        ⟨"worry", "medium", false, [], "en"⟩
        (run_safety_agent "my exam is coming up soon" ⟨"worry", "medium", false, [], "en"⟩)
        "").add_support = false :=
  ⟨by decide, by decide, by decide, by decide, by decide⟩

/-- C3 amended: for every turn with `escalate` false and `joy_mode` false,
`include_support` is true if and only if the effective risk level is high;
medium risk does not trigger support and no emotional-distress keyword set
is consulted for it. -/
theorem c3_amended_support_iff_high_risk (m : String)
    (hist : List ChatMessage) (i : Insights) (iv : String)
    (h1 : (run_safety_agent m i).escalate = false)
    (h2 : (responseDecision m hist i (run_safety_agent m i) iv).joy_mode = false) :
    ((responseDecision m hist i (run_safety_agent m i) iv).add_support = true ↔
      (responseDecision m hist i (run_safety_agent m i) iv).effective_risk =
        "high") := by
  simp only [responseDecision] at h2 ⊢
  simp [addSupportOf, h2, h1]

/-- C3 amended, witness at the medium-risk keyword-free turn. -/
theorem c3_amended_witness :
    ((responseDecision "my exam is coming up soon" []
        ⟨"worry", "medium", false, [], "en"⟩
        (run_safety_agent "my exam is coming up soon" ⟨"worry", "medium", false, [], "en"⟩)
        "").add_support = true ↔
      (responseDecision "my exam is coming up soon" []
        ⟨"worry", "medium", false, [], "en"⟩
        (run_safety_agent "my exam is coming up soon" ⟨"worry", "medium", false, [], "en"⟩)
        "").effective_risk = "high") :=
  c3_amended_support_iff_high_risk "my exam is coming up soon" []
    ⟨"worry", "medium", false, [], "en"⟩ "" (by decide) (by decide)

/-- C4: every message containing a self-harm keyword makes the safety
classifier return escalate true, override risk high and the self-harm
category, irrespective of the InsightResult — in both the wired
`run_safety_agent` and the class-based `SafetyAgent.run`; since the
self-harm scan runs first, self-harm wins when violence keywords also
match. -/
theorem c4_self_harm_priority (m : String) (i : Insights) :
    (containsAny (lowerPy m) danger_keywords = true →
      run_safety_agent m i =
        ⟨true, "Self-harm keywords detected", some "high", true, false⟩) ∧
    (containsAny (lowerPy m) agents_danger_keywords = true →
      safety_agent_run m i =
        ⟨true, "Self-harm keywords detected", some "high", true, false⟩) :=
  ⟨fun h => by simp [run_safety_agent, h],
   fun h => by simp [safety_agent_run, h]⟩

/-- C4 witness: a message matching both the self-harm and the violence
keyword sets still gets the self-harm category. -/
theorem c4_self_harm_priority_witness :
    containsAny (lowerPy "tự tử và anh đánh em") relationship_violence = true ∧
    run_safety_agent "tự tử và anh đánh em" ⟨"neutral", "low", false, [], "vi"⟩ =
      ⟨true, "Self-harm keywords detected", some "high", true, false⟩ ∧
    safety_agent_run "tự tử và anh đánh em" ⟨"neutral", "low", false, [], "vi"⟩ =
      ⟨true, "Self-harm keywords detected", some "high", true, false⟩ :=
  ⟨by decide,
   (c4_self_harm_priority "tự tử và anh đánh em"
      ⟨"neutral", "low", false, [], "vi"⟩).1 (by decide),
   (c4_self_harm_priority "tự tử và anh đánh em"
      ⟨"neutral", "low", false, [], "vi"⟩).2 (by decide)⟩

/-- C5: a current message containing a negative-break keyword forces
`joy_mode` false for that turn, irrespective of the history, the insights
and the safety result (and likewise in the class-based
`JoyAgent.update_state` with its own break list). -/
theorem c5_negative_break_joy_off (m : String) (hist : List ChatMessage)
    (i : Insights) (sa : SafetyResult) (iv : String) :
    (containsAny (lowerPy m) negative_break_keywords = true →
      (responseDecision m hist i sa iv).joy_mode = false) ∧
    (containsAny (lowerPy m) joy_agent_negative_break = true →
      joy_agent_update_state hist m = false) :=
  ⟨fun h => by simp [responseDecision, joyModeOf, h],
   fun h => by simp [joy_agent_update_state, h]⟩

/-- C5 witness: a sad message right after a celebratory history with a
positive-event low-risk insight still has `joy_mode = false`. -/
theorem c5_negative_break_joy_off_witness :
    (responseDecision "buồn quá anh ơi" [⟨"user", "em trúng học bổng rồi"⟩]
        ⟨"joy", "low", true, [], "vi"⟩
        (run_safety_agent "buồn quá anh ơi" ⟨"joy", "low", true, [], "vi"⟩)
        "x").joy_mode = false ∧
    joy_agent_update_state [⟨"user", "em trúng học bổng rồi"⟩]
      "buồn quá anh ơi" = false :=
  ⟨(c5_negative_break_joy_off "buồn quá anh ơi"
      [⟨"user", "em trúng học bổng rồi"⟩] ⟨"joy", "low", true, [], "vi"⟩
      (run_safety_agent "buồn quá anh ơi" ⟨"joy", "low", true, [], "vi"⟩)
      "x").1 (by decide),
   (c5_negative_break_joy_off "buồn quá anh ơi"
      [⟨"user", "em trúng học bổng rồi"⟩] ⟨"joy", "low", true, [], "vi"⟩
      (run_safety_agent "buồn quá anh ơi" ⟨"joy", "low", true, [], "vi"⟩)
      "x").2 (by decide)⟩

/-- C6: whenever the safety agent escalates (any category), the resolved
decision has `include_support = true` and `joy_mode = false` — joy mode
while escalated cannot occur. -/
theorem c6_escalation_precedence (m : String) (hist : List ChatMessage)
    (i : Insights) (iv : String)
    (h : (run_safety_agent m i).escalate = true) :
    (responseDecision m hist i (run_safety_agent m i) iv).add_support = true ∧
    (responseDecision m hist i (run_safety_agent m i) iv).joy_mode = false :=
  ⟨addSupport_of_escalate m hist i h, joyMode_false_of_escalate m hist i h⟩

/-- C6 witness at a concrete self-harm escalation. -/
theorem c6_escalation_precedence_witness :
    (responseDecision "i want to kill myself" []
        ⟨"sadness", "high", false, [], "en"⟩
        (run_safety_agent "i want to kill myself" ⟨"sadness", "high", false, [], "en"⟩)
        "x").add_support = true ∧
    (responseDecision "i want to kill myself" []
        ⟨"sadness", "high", false, [], "en"⟩
        (run_safety_agent "i want to kill myself" ⟨"sadness", "high", false, [], "en"⟩)
        "x").joy_mode = false :=
  c6_escalation_precedence "i want to kill myself" []
    ⟨"sadness", "high", false, [], "en"⟩ "x" (by decide)

/-- C7 counterexample: a self-harm escalation (category self_harm) leaves a
non-empty intervention text unchanged in the decision — the intervention is
not forced empty for self-harm/violence escalations as claimed. -/
theorem c7_counterexample :
    (run_safety_agent "i want to kill myself"
        ⟨"sadness", "high", false, [], "en"⟩).self_harm = true ∧
    (run_safety_agent "i want to kill myself"
        ⟨"sadness", "high", false, [], "en"⟩).escalate = true ∧
    run_intervention_agent ⟨"sadness", "high", false, [], "en"⟩
      "Take one slow breath." = "Take one slow breath." ∧
    (responseDecision "i want to kill myself" []
        ⟨"sadness", "high", false, [], "en"⟩
        (run_safety_agent "i want to kill myself" ⟨"sadness", "high", false, [], "en"⟩)
        "Take one slow breath.").interventions = "Take one slow breath." ∧
    ("Take one slow breath." : String) ≠ "" :=
  ⟨by decide, by decide, by decide, by decide, by decide⟩

/-- C7 amended: the composer forces the intervention text empty only in joy
mode; on any escalation (joy mode being then impossible) the intervention
text is passed through to the directive bundle unchanged, whatever the
category. -/
theorem c7_amended_interventions_passthrough (m : String)
    (hist : List ChatMessage) (i : Insights) (iv : String) :
    ((run_safety_agent m i).escalate = true →
      (responseDecision m hist i (run_safety_agent m i) iv).interventions = iv) ∧
    (∀ sa : SafetyResult, joyModeOf m hist i sa = true →
      (responseDecision m hist i sa iv).interventions = "") := by
  constructor
  · intro h
    simp [responseDecision, interventionsOf, joyMode_false_of_escalate m hist i h]
  · intro sa hj
    simp [responseDecision, interventionsOf, hj]

/-- C7 amended, witness: passthrough on a self-harm escalation and reset on
a celebratory joy turn. -/
theorem c7_amended_witness :
    (responseDecision "i want to kill myself" []
        ⟨"sadness", "high", false, [], "en"⟩
        (run_safety_agent "i want to kill myself" ⟨"sadness", "high", false, [], "en"⟩)
        "Take one slow breath.").interventions = "Take one slow breath." ∧
    (responseDecision "em trúng học bổng rồi" [] ⟨"joy", "low", true, [], "vi"⟩
        (run_safety_agent "em trúng học bổng rồi" ⟨"joy", "low", true, [], "vi"⟩)
        "x").interventions = "" :=
  ⟨(c7_amended_interventions_passthrough "i want to kill myself" []
      ⟨"sadness", "high", false, [], "en"⟩ "Take one slow breath.").1 (by decide),
   (c7_amended_interventions_passthrough "em trúng học bổng rồi" []
      ⟨"joy", "low", true, [], "vi"⟩ "x").2
     (run_safety_agent "em trúng học bổng rồi" ⟨"joy", "low", true, [], "vi"⟩)
     (by decide)⟩

/-- C8 counterexample: an object that parses but has malformed fields
(`emotion` a number, all other fields missing) is returned by the insight
agent as-is, not replaced by the documented default. -/
theorem c8_counterexample :
    run_insight_agent loads0 (Except.ok "\x7b\"emotion\": 42\x7d") =
      JsonVal.obj [("emotion", JsonVal.num 42)] ∧
    JsonVal.obj [("emotion", JsonVal.num 42)] ≠ defaultInsight := by
  constructor
  · rfl
  · simp [defaultInsight]

/-- C8 amended: the insight agent substitutes the documented default when
the structured-extraction call raises or when no JSON value can be parsed
from its output (so no exception propagates), but any successfully parsed
JSON value — including malformed objects — is returned without field
validation. -/
theorem c8_amended_fallback_semantics (loads : String → Option JsonVal) :
    (∀ e : Unit, run_insight_agent loads (Except.error e) = defaultInsight) ∧
    (∀ raw, extract_json loads raw = none →
      run_insight_agent loads (Except.ok raw) = defaultInsight) ∧
    (∀ raw v, extract_json loads raw = some v →
      run_insight_agent loads (Except.ok raw) = v) := by
  refine ⟨fun e => rfl, fun raw h => ?_, fun raw v h => ?_⟩ <;>
    simp [run_insight_agent, h]

/-- C8 amended, witness: a raised call and an unparseable output fall back
to the default; a parsed malformed object passes through. -/
theorem c8_amended_witness :
    run_insight_agent loads0 (Except.error ()) = defaultInsight ∧
    run_insight_agent loads0 (Except.ok "no json here") = defaultInsight ∧
    run_insight_agent loads0 (Except.ok "\x7b\"emotion\": 42\x7d") =
      JsonVal.obj [("emotion", JsonVal.num 42)] :=
  ⟨(c8_amended_fallback_semantics loads0).1 (),
   (c8_amended_fallback_semantics loads0).2.1 "no json here" rfl,
   (c8_amended_fallback_semantics loads0).2.2 _ _ rfl⟩

/-- C9: with the external collaborator stubbed (equal `loads` and equal
call outcomes) and identical message, history, insights and intervention
inputs, two runs of the decision pipeline agree on the SafetyResult, the
resolved decision fields (joy mode, support, interventions, effective
risk), the insight fallback and the trend fallback. -/
theorem c9_two_run_determinism (loads loads' : String → Option JsonVal)
    (ic ic' tc tc' : Except Unit String) (m m' : String)
    (hist hist' : List ChatMessage) (i i' : Insights) (iv iv' : String)
    (hl : loads = loads') (hic : ic = ic') (htc : tc = tc') (hm : m = m')
    (hh : hist = hist') (hi : i = i') (hiv : iv = iv') :
    run_insight_agent loads ic = run_insight_agent loads' ic' ∧
    run_safety_agent m i = run_safety_agent m' i' ∧
    responseDecision m hist i (run_safety_agent m i) iv =
      responseDecision m' hist' i' (run_safety_agent m' i') iv' ∧
    run_trend_agent loads tc = run_trend_agent loads' tc' := by
  subst hl hic htc hm hh hi hiv
  exact ⟨rfl, rfl, rfl, rfl⟩

/-- C9 witness at concrete equal inputs. -/
theorem c9_two_run_determinism_witness :
    run_insight_agent loads0 (Except.error ()) =
      run_insight_agent loads0 (Except.error ()) ∧
    run_safety_agent "hello" ⟨"neutral", "low", false, [], "en"⟩ =
      run_safety_agent "hello" ⟨"neutral", "low", false, [], "en"⟩ ∧
    responseDecision "hello" [] ⟨"neutral", "low", false, [], "en"⟩
        (run_safety_agent "hello" ⟨"neutral", "low", false, [], "en"⟩) "" =
      responseDecision "hello" [] ⟨"neutral", "low", false, [], "en"⟩
        (run_safety_agent "hello" ⟨"neutral", "low", false, [], "en"⟩) "" ∧
    run_trend_agent loads0 (Except.error ()) =
      run_trend_agent loads0 (Except.error ()) :=
  c9_two_run_determinism loads0 loads0 (Except.error ()) (Except.error ())
    (Except.error ()) (Except.error ()) "hello" "hello" [] []
    ⟨"neutral", "low", false, [], "en"⟩ ⟨"neutral", "low", false, [], "en"⟩
    "" "" rfl rfl rfl rfl rfl rfl rfl

/-- C10: both safety classifiers return override risk exactly `some "high"`
when escalating and `none` otherwise (never "medium"), set the self-harm
and violence flags only on escalated results, and every escalated result
has effective risk "high". -/
theorem c10_safety_result_invariants (m : String) (i : Insights) :
    ((run_safety_agent m i).override_risk_level =
      if (run_safety_agent m i).escalate then some "high" else none) ∧
    ((run_safety_agent m i).self_harm = true →
      (run_safety_agent m i).escalate = true) ∧
    ((run_safety_agent m i).violence = true →
      (run_safety_agent m i).escalate = true) ∧
    ((run_safety_agent m i).escalate = true →
      effectiveRiskOf i (run_safety_agent m i) = "high") ∧
    ((safety_agent_run m i).override_risk_level =
      if (safety_agent_run m i).escalate then some "high" else none) ∧
    ((safety_agent_run m i).self_harm = true →
      (safety_agent_run m i).escalate = true) ∧
    ((safety_agent_run m i).violence = true →
      (safety_agent_run m i).escalate = true) ∧
    ((safety_agent_run m i).escalate = true →
      effectiveRiskOf i (safety_agent_run m i) = "high") := by
  obtain ⟨a1, a2, a3, a4⟩ :=
    shape_consequences (run_safety_agent m i) i (safety_shape m i)
  obtain ⟨b1, b2, b3, b4⟩ :=
    shape_consequences (safety_agent_run m i) i (safety_shape_agents m i)
  exact ⟨a1, a2, a3, a4, b1, b2, b3, b4⟩

/-- C10 witness at concrete escalating inputs of each kind. -/
theorem c10_safety_result_invariants_witness :
    (run_safety_agent "tự tử" ⟨"neutral", "low", false, [], "vi"⟩).override_risk_level =
      (if (run_safety_agent "tự tử" ⟨"neutral", "low", false, [], "vi"⟩).escalate then
        some "high" else none) ∧
    (run_safety_agent "tự tử" ⟨"neutral", "low", false, [], "vi"⟩).escalate = true ∧
    effectiveRiskOf ⟨"neutral", "low", false, [], "vi"⟩
      (run_safety_agent "tự tử" ⟨"neutral", "low", false, [], "vi"⟩) = "high" ∧
    (safety_agent_run "anh danh em" ⟨"neutral", "low", false, [], "vi"⟩).escalate = true :=
  ⟨(c10_safety_result_invariants "tự tử" ⟨"neutral", "low", false, [], "vi"⟩).1,
   (c10_safety_result_invariants "tự tử" ⟨"neutral", "low", false, [], "vi"⟩).2.1
     (by decide),
   (c10_safety_result_invariants "tự tử" ⟨"neutral", "low", false, [], "vi"⟩).2.2.2.1
     (by decide),
   (c10_safety_result_invariants "anh danh em"
      ⟨"neutral", "low", false, [], "vi"⟩).2.2.2.2.2.2.1 (by decide)⟩

end Wellbeing
